import Mathlib

/-!
Verification of the pixel-renderer rendering core (`src/render.rs` and the
canvas module) against its specification.

The Rust code is shallowly embedded: wgpu handles (surface, device, queue,
adapter, window) are opaque identifiers, GPU resources (textures, samplers,
bind groups, pipelines) are records of their creation descriptors, and the
side effects an operation performs against the surface/queue are returned
explicitly as a list of `GpuOp` events in the order the code issues them.
Machine integers (`u32`) are modelled as `Nat`; where overflow can matter
(`4 * canvas.width`) the multiplication is reduced mod `2^32` explicitly.
The vertex constants in the source are the `f32` literals `-1.0`, `0.0` and
`1.0`, all exactly representable, so vertex coordinates are modelled as
`Int`; the clear-color literals are modelled as the rationals they denote.
-/

namespace PixelRenderer

/-- Physical size of a window in pixels (winit `PhysicalSize<u32>`). -/
structure PhysicalSize where
  width : Nat
  height : Nat
  deriving DecidableEq, Repr

/-- A surface texture format; only the sRGB capability (what
`format.describe().srgb` reports) and an identity are relevant. -/
structure TextureFormat where
  id : Nat
  srgb : Bool
  deriving DecidableEq, Repr

/-- The texture format `Rgba8UnormSrgb` used for the canvas texture. -/
def Rgba8UnormSrgb : TextureFormat := { id := 100, srgb := true }

/-- wgpu `PresentMode`. -/
inductive PresentMode
  | AutoVsync
  | AutoNoVsync
  | Fifo
  | FifoRelaxed
  | Immediate
  | Mailbox
  deriving DecidableEq, Repr

/-- Composite alpha mode, opaque identity. -/
structure AlphaMode where
  id : Nat
  deriving DecidableEq, Repr

/-- What `surface.get_capabilities(adapter)` reports. -/
structure SurfaceCapabilities where
  formats : List TextureFormat
  alpha_modes : List AlphaMode
  deriving DecidableEq, Repr

/-- wgpu `TextureUsages` bit for `COPY_DST`. -/
def COPY_DST : Nat := 2
/-- wgpu `TextureUsages` bit for `TEXTURE_BINDING`. -/
def TEXTURE_BINDING : Nat := 4
/-- wgpu `TextureUsages` bit for `RENDER_ATTACHMENT`. -/
def RENDER_ATTACHMENT : Nat := 16

/-- wgpu `SurfaceConfiguration`. -/
structure SurfaceConfiguration where
  usage : Nat
  format : TextureFormat
  width : Nat
  height : Nat
  present_mode : PresentMode
  alpha_mode : AlphaMode
  view_formats : List TextureFormat
  deriving DecidableEq, Repr

/-- The window, exposing its inner physical size. -/
structure Window where
  id : Nat
  inner_size : PhysicalSize
  deriving DecidableEq, Repr

/-- wgpu `Extent3d`. -/
structure Extent3d where
  width : Nat
  height : Nat
  depth_or_array_layers : Nat
  deriving DecidableEq, Repr

/-- A created texture, as its creation descriptor. -/
structure Texture where
  size : Extent3d
  mip_level_count : Nat
  sample_count : Nat
  format : TextureFormat
  usage : Nat
  deriving DecidableEq, Repr

/-- wgpu `FilterMode`. -/
inductive FilterMode
  | Nearest
  | Linear
  deriving DecidableEq, Repr

/-- wgpu `AddressMode`. -/
inductive AddressMode
  | ClampToEdge
  | Repeat
  | MirrorRepeat
  deriving DecidableEq, Repr

/-- A created sampler, as its creation descriptor. -/
structure Sampler where
  address_mode_u : AddressMode
  address_mode_v : AddressMode
  address_mode_w : AddressMode
  mag_filter : FilterMode
  min_filter : FilterMode
  mipmap_filter : FilterMode
  deriving DecidableEq, Repr

/-- A texture view (default view of a texture). -/
structure TextureView where
  texture : Texture
  deriving DecidableEq, Repr

/-- A resource bound in a bind group entry. -/
inductive BindingResource
  | textureView (view : TextureView)
  | sampler (s : Sampler)
  deriving DecidableEq, Repr

/-- A created bind group: its entries as (binding index, resource) pairs. -/
structure BindGroup where
  entries : List (Nat × BindingResource)
  deriving DecidableEq, Repr

/-- Vertex of the full-viewport quad: position (3 `f32`) and uv (2 `f32`).
All coordinate literals in the source are exactly representable integers. -/
structure Vertex where
  position : Int × Int × Int
  uv : Int × Int
  deriving DecidableEq, Repr

/-- wgpu `PrimitiveTopology` (only the used variant and a contrast). -/
inductive PrimitiveTopology
  | TriangleList
  | TriangleStrip
  deriving DecidableEq, Repr

/-- A created render pipeline, as the descriptor data relevant here. -/
structure RenderPipeline where
  target_format : TextureFormat
  topology : PrimitiveTopology
  deriving DecidableEq, Repr

/-- Clear color with rational components. -/
structure Color where
  r : ℚ
  g : ℚ
  b : ℚ
  a : ℚ
  deriving DecidableEq, Repr

/-- wgpu `IndexFormat`. -/
inductive IndexFormat
  | Uint16
  | Uint32
  deriving DecidableEq, Repr

/-- `std::num::NonZeroU32::new`: `none` exactly when the argument is zero. -/
def nonZeroU32 (n : Nat) : Option Nat :=
  if n = 0 then none else some n

/-- Modelled from the spec: the canvas module (`PixelCanvas`) is not among
the given sources; its data model follows §3 of the spec — `width`,
`height`, and a byte buffer of length `width*height*4`, RGBA8 row-major. -/
structure Canvas where
  width : Nat
  height : Nat
  pixels : List Nat
  deriving DecidableEq, Repr

namespace Canvas

/-- Modelled from the spec: `PixelCanvas::new` allocates a zeroed buffer of
length `width*height*4`. -/
def new (width height : Nat) : Canvas :=
  { width := width, height := height,
    pixels := List.replicate (width * height * 4) 0 }

/-- Byte offset of pixel `(x, y)` in the row-major RGBA8 buffer. -/
def byteIndex (c : Canvas) (x y : Nat) : Nat :=
  (y * c.width + x) * 4

/-- Replace the 4 bytes starting at offset `i` with `r g b a`. -/
def setBytes4 (bytes : List Nat) (i r g b a : Nat) : List Nat :=
  ((((bytes.set i r).set (i + 1) g).set (i + 2) b).set (i + 3) a)

/-- Modelled from the spec: `write_pixel(x, y, rgba)` writes the 4 bytes of
pixel `(x, y)`; out-of-bounds coordinates (`x ≥ width` or `y ≥ height`) are
silently ignored. -/
def write_pixel_rgba (c : Canvas) (x y r g b a : Nat) : Canvas :=
  if x < c.width ∧ y < c.height then
    { c with pixels := setBytes4 c.pixels (c.byteIndex x y) r g b a }
  else
    c

/-- Modelled from the spec: the RGB write defaults alpha to opaque (255). -/
def write_pixel_rgb (c : Canvas) (x y r g b : Nat) : Canvas :=
  c.write_pixel_rgba x y r g b 255

/-- Modelled from the spec: `read_pixel(x, y)` returns `none` when out of
bounds, otherwise the 4 bytes of pixel `(x, y)`. -/
def read_pixel (c : Canvas) (x y : Nat) : Option (Nat × Nat × Nat × Nat) :=
  if x < c.width ∧ y < c.height then
    let i := c.byteIndex x y
    some (c.pixels.getD i 0, c.pixels.getD (i + 1) 0,
          c.pixels.getD (i + 2) 0, c.pixels.getD (i + 3) 0)
  else
    none

end Canvas

/-- Modelled from the spec: the default canvas width from the canvas module;
the exact value is not given by the spec and no claim depends on it. -/
def DEFAULT_CANVAS_WIDTH : Nat := 256

/-- Modelled from the spec: the default canvas height from the canvas
module; the exact value is not given by the spec and no claim depends on
it. -/
def DEFAULT_CANVAS_HEIGHT : Nat := 256

/-- Modelled from the spec: a screenshot uploader sized to the canvas;
opaque to the render core. -/
structure ScreenshotUploader where
  width : Nat
  height : Nat
  deriving DecidableEq, Repr

/-- Modelled from the spec: a GIF uploader sized to the canvas; opaque to
the render core. -/
structure GifUploader where
  width : Nat
  height : Nat
  deriving DecidableEq, Repr

/-- `wgpu::SurfaceError` (`get_current_texture` failure). -/
inductive SurfaceError
  | Timeout
  | Outdated
  | Lost
  | OutOfMemory
  deriving DecidableEq, Repr

/-- A surface texture acquired from `get_current_texture`, opaque. -/
structure SurfaceTexture where
  id : Nat
  deriving DecidableEq, Repr

/-- An observable effect issued against the surface, queue or encoder, in
program order. -/
inductive GpuOp
  | configure (config : SurfaceConfiguration)
  | writeTexture (texture : Texture) (data : List Nat)
      (bytes_per_row : Option Nat) (rows_per_image : Option Nat)
      (size : Extent3d)
  | getCurrentTexture
  | beginRenderPass (clear : Color) (store : Bool)
  | setPipeline (pipeline : RenderPipeline)
  | setBindGroup (index : Nat) (group : BindGroup)
  | setVertexBuffer (slot : Nat) (buffer : List Vertex)
  | setIndexBuffer (buffer : List Nat) (format : IndexFormat)
  | drawIndexed (firstIndex lastIndex : Nat) (baseVertex : Int)
      (firstInstance lastInstance : Nat)
  | submit
  | present (frame : SurfaceTexture)
  deriving DecidableEq, Repr

/-- The `RenderContext` struct of `render.rs`, field for field. Handles
with no observable structure are `Nat` identifiers. -/
structure RenderContext where
  canvas : Canvas
  screenshot_uploader : ScreenshotUploader
  gif_uploader : GifUploader
  surface : Nat
  device : Nat
  adapter : Nat
  queue : Nat
  surface_config : SurfaceConfiguration
  window_size : PhysicalSize
  window : Window
  render_pipeline : RenderPipeline
  vertex_buffer : List Vertex
  index_buffer : List Nat
  num_indices : Nat
  diffuse_bind_group : BindGroup
  texture : Texture
  deriving DecidableEq, Repr

/-- `create_surface_config` (render.rs 219–244): picks the first
sRGB-capable reported format, else the first reported format, and builds
the configuration from the window's inner size and the given present
mode. The Rust `surface_caps.formats[0]` is `headD` here; the capability
lists of a compatible surface are nonempty, which theorems carry as a
hypothesis. -/
def create_surface_config (window : Window) (caps : SurfaceCapabilities)
    (present_mode : PresentMode) : SurfaceConfiguration :=
  let size := window.inner_size
  let surface_format :=
    (caps.formats.find? (fun f => f.srgb)).getD
      (caps.formats.headD { id := 0, srgb := false })
  { usage := RENDER_ATTACHMENT
    format := surface_format
    width := size.width
    height := size.height
    present_mode := present_mode
    alpha_mode := caps.alpha_modes.headD { id := 0 }
    view_formats := [] }

/-- `create_pipeline` (render.rs 246–361): the canvas texture sized
`width×height`, the nearest-neighbor clamp-to-edge sampler, the bind group
pairing the texture view and the sampler, and the render pipeline
targeting the surface format. -/
def create_pipeline (device : Nat) (surface_config : SurfaceConfiguration)
    (width height : Nat) : RenderPipeline × Texture × BindGroup :=
  let texture_size : Extent3d :=
    { width := width, height := height, depth_or_array_layers := 1 }
  let diffuse_texture : Texture :=
    { size := texture_size
      mip_level_count := 1
      sample_count := 1
      format := Rgba8UnormSrgb
      usage := TEXTURE_BINDING ||| COPY_DST }
  let diffuse_texture_view : TextureView := { texture := diffuse_texture }
  let diffuse_sampler : Sampler :=
    { address_mode_u := AddressMode.ClampToEdge
      address_mode_v := AddressMode.ClampToEdge
      address_mode_w := AddressMode.ClampToEdge
      mag_filter := FilterMode.Nearest
      min_filter := FilterMode.Nearest
      mipmap_filter := FilterMode.Nearest }
  let diffuse_bind_group : BindGroup :=
    { entries := [(0, BindingResource.textureView diffuse_texture_view),
                  (1, BindingResource.sampler diffuse_sampler)] }
  let render_pipeline : RenderPipeline :=
    { target_format := surface_config.format
      topology := PrimitiveTopology.TriangleList }
  (render_pipeline, diffuse_texture, diffuse_bind_group)

/-- The constant quad vertices (render.rs 90–95). -/
def VERTICES : List Vertex :=
  [ { position := (-1, -1, 0), uv := (0, 1) },
    { position := (1, -1, 0), uv := (1, 1) },
    { position := (-1, 1, 0), uv := (0, 0) },
    { position := (1, 1, 0), uv := (1, 0) } ]

/-- The constant quad indices (render.rs 96). -/
def INDICES : List Nat := [0, 1, 2, 3, 2, 1]

namespace RenderContext

/-- `RenderContext::new` (render.rs 29–135), minus the fallible adapter and
device negotiation (whose failure aborts the process): builds the surface
configuration, applies it, builds the pipeline/texture/bind group for the
default canvas size, creates the constant vertex and index buffers, and
the canvas and uploaders. Returns the context and the surface operations
performed. -/
def new (window : Window) (caps : SurfaceCapabilities) :
    RenderContext × List GpuOp :=
  let size := window.inner_size
  let surface_config :=
    create_surface_config window caps PresentMode.AutoVsync
  let ops := [GpuOp.configure surface_config]
  let built :=
    create_pipeline 0 surface_config DEFAULT_CANVAS_WIDTH
      DEFAULT_CANVAS_HEIGHT
  let canvas := Canvas.new DEFAULT_CANVAS_WIDTH DEFAULT_CANVAS_HEIGHT
  ({ window := window
     surface := 0
     device := 0
     adapter := 0
     queue := 0
     surface_config := surface_config
     window_size := size
     render_pipeline := built.1
     vertex_buffer := VERTICES
     index_buffer := INDICES
     num_indices := INDICES.length
     diffuse_bind_group := built.2.2
     texture := built.2.1
     canvas := canvas
     screenshot_uploader :=
       { width := DEFAULT_CANVAS_WIDTH, height := DEFAULT_CANVAS_HEIGHT }
     gif_uploader :=
       { width := DEFAULT_CANVAS_WIDTH, height := DEFAULT_CANVAS_HEIGHT } },
   ops)

/-- `RenderContext::resize_canvas_texture` (render.rs 137–143). -/
def resize_canvas_texture (ctx : RenderContext) (width height : Nat) :
    RenderContext :=
  let built := create_pipeline ctx.device ctx.surface_config width height
  { ctx with
    render_pipeline := built.1
    texture := built.2.1
    diffuse_bind_group := built.2.2 }

/-- `RenderContext::reconfigure_present_mode` (render.rs 145–148). -/
def reconfigure_present_mode (ctx : RenderContext)
    (present_mode : PresentMode) : RenderContext × List GpuOp :=
  let config := { ctx.surface_config with present_mode := present_mode }
  ({ ctx with surface_config := config }, [GpuOp.configure config])

/-- `RenderContext::resize_window` (render.rs 150–157). -/
def resize_window (ctx : RenderContext) (new_size : PhysicalSize) :
    RenderContext × List GpuOp :=
  if 0 < new_size.width ∧ 0 < new_size.height then
    let config := { ctx.surface_config with
                    width := new_size.width, height := new_size.height }
    ({ ctx with window_size := new_size, surface_config := config },
     [GpuOp.configure config])
  else
    (ctx, [])

/-- The fixed clear color of the render pass (render.rs 194–199). -/
def clearColor : Color := { r := 1/10, g := 2/10, b := 3/10, a := 1 }

/-- The texture upload `render` issues first (render.rs 161–175):
`bytes_per_row = NonZeroU32::new(4 * canvas.width)` (the `u32` product
reduced mod `2^32`), `rows_per_image = NonZeroU32::new(canvas.height)`. -/
def writeTextureOp (ctx : RenderContext) : GpuOp :=
  GpuOp.writeTexture ctx.texture ctx.canvas.pixels
    (nonZeroU32 ((4 * ctx.canvas.width) % 2 ^ 32))
    (nonZeroU32 ctx.canvas.height)
    ctx.texture.size

/-- `RenderContext::render` (render.rs 159–216). The outcome of
`surface.get_current_texture()` is an explicit input; the function returns
the `Result`, the updated context and the operations issued in program
order. On acquisition failure `?` returns the error after the texture
upload, recording no pass, submitting and presenting nothing. -/
def render (ctx : RenderContext)
    (acquired : Except SurfaceError SurfaceTexture) :
    Except SurfaceError Unit × RenderContext × List GpuOp :=
  let upload := ctx.writeTextureOp
  match acquired with
  | Except.error e =>
      (Except.error e, ctx, [upload, GpuOp.getCurrentTexture])
  | Except.ok output =>
      (Except.ok (), ctx,
       [upload,
        GpuOp.getCurrentTexture,
        GpuOp.beginRenderPass clearColor true,
        GpuOp.setPipeline ctx.render_pipeline,
        GpuOp.setBindGroup 0 ctx.diffuse_bind_group,
        GpuOp.setVertexBuffer 0 ctx.vertex_buffer,
        GpuOp.setIndexBuffer ctx.index_buffer IndexFormat.Uint16,
        GpuOp.drawIndexed 0 ctx.num_indices 0 0 1,
        GpuOp.submit,
        GpuOp.present output])

end RenderContext

/-- The contexts reachable from construction by the exposed operations. -/
inductive Reachable : RenderContext → Prop
  | new (window : Window) (caps : SurfaceCapabilities) :
      Reachable (RenderContext.new window caps).1
  | resize_window {ctx : RenderContext} (new_size : PhysicalSize) :
      Reachable ctx → Reachable (ctx.resize_window new_size).1
  | reconfigure_present_mode {ctx : RenderContext} (mode : PresentMode) :
      Reachable ctx → Reachable (ctx.reconfigure_present_mode mode).1
  | resize_canvas_texture {ctx : RenderContext} (width height : Nat) :
      Reachable ctx → Reachable (ctx.resize_canvas_texture width height)
  | render {ctx : RenderContext}
      (acquired : Except SurfaceError SurfaceTexture) :
      Reachable ctx → Reachable (ctx.render acquired).2.1

namespace GpuOp

/-- Recognizes a render-pass beginning in a trace. -/
def isBeginRenderPass : GpuOp → Bool
  | GpuOp.beginRenderPass _ _ => true
  | _ => false

/-- Recognizes an indexed draw call in a trace. -/
def isDrawIndexed : GpuOp → Bool
  | GpuOp.drawIndexed _ _ _ _ _ => true
  | _ => false

/-- Recognizes a queue submission in a trace. -/
def isSubmit : GpuOp → Bool
  | GpuOp.submit => true
  | _ => false

/-- Recognizes a presentation in a trace. -/
def isPresent : GpuOp → Bool
  | GpuOp.present _ => true
  | _ => false

end GpuOp

/-- The invariant carried by every reachable context: constant geometry and
surface configuration dimensions agreeing with the stored window size. -/
def coreInv (ctx : RenderContext) : Prop :=
  ctx.vertex_buffer = VERTICES ∧
  ctx.index_buffer = INDICES ∧
  ctx.num_indices = 6 ∧
  ctx.surface_config.width = ctx.window_size.width ∧
  ctx.surface_config.height = ctx.window_size.height

lemma reachable_coreInv {ctx : RenderContext} (h : Reachable ctx) :
    coreInv ctx := by
  induction h with
  | new window caps => exact ⟨rfl, rfl, rfl, rfl, rfl⟩
  | resize_window new_size hr ih =>
      unfold RenderContext.resize_window
      split
      · exact ⟨ih.1, ih.2.1, ih.2.2.1, rfl, rfl⟩
      · exact ih
  | reconfigure_present_mode mode hr ih =>
      exact ⟨ih.1, ih.2.1, ih.2.2.1, ih.2.2.2.1, ih.2.2.2.2⟩
  | resize_canvas_texture width height hr ih =>
      exact ⟨ih.1, ih.2.1, ih.2.2.1, ih.2.2.2.1, ih.2.2.2.2⟩
  | render acquired hr ih =>
      cases acquired <;> exact ih

/-- A concrete window used as witness input. -/
def sampleWindow : Window :=
  { id := 0, inner_size := { width := 640, height := 480 } }

/-- Concrete surface capabilities used as witness input: one non-sRGB
format followed by an sRGB one. -/
def sampleCaps : SurfaceCapabilities :=
  { formats := [{ id := 1, srgb := false }, { id := 2, srgb := true }]
    alpha_modes := [{ id := 0 }] }

/-- A concrete freshly constructed context used as witness input. -/
def sampleCtx : RenderContext :=
  (RenderContext.new sampleWindow sampleCaps).1

/-- C1: if surface image acquisition fails, `render` aborts the frame — it
returns the error (a value, not a panic), leaves every field of the context
unchanged, and its trace records no render pass, no submission and no
presentation, so the failure is a skipped frame for the caller to retry; if
acquisition succeeds, `render` returns `Ok(())`. -/
theorem render_failure_skips_frame (ctx : RenderContext) :
    (∀ e : SurfaceError,
      (ctx.render (Except.error e)).1 = Except.error e ∧
      (ctx.render (Except.error e)).2.1 = ctx ∧
      ∀ op ∈ (ctx.render (Except.error e)).2.2,
        op.isBeginRenderPass = false ∧ op.isSubmit = false ∧
          op.isPresent = false) ∧
    ∀ t : SurfaceTexture, (ctx.render (Except.ok t)).1 = Except.ok () := by
  constructor
  · intro e
    refine ⟨rfl, rfl, ?_⟩
    intro op hop
    simp only [RenderContext.render, RenderContext.writeTextureOp,
      List.mem_cons, List.not_mem_nil, or_false] at hop
    rcases hop with rfl | rfl
    · exact ⟨rfl, rfl, rfl⟩
    · exact ⟨rfl, rfl, rfl⟩
  · intro t
    rfl

/-- C4: `resize_window` with a zero dimension is a no-op (stored window
size and surface configuration unchanged, no reconfigure issued); with
both dimensions positive it stores the new size, updates the
configuration's width/height, and reconfigures the surface. -/
theorem resize_window_zero_noop (ctx : RenderContext)
    (new_size : PhysicalSize) :
    ((new_size.width = 0 ∨ new_size.height = 0) →
      ctx.resize_window new_size = (ctx, [])) ∧
    (0 < new_size.width → 0 < new_size.height →
      (ctx.resize_window new_size).1.window_size = new_size ∧
      (ctx.resize_window new_size).1.surface_config.width =
        new_size.width ∧
      (ctx.resize_window new_size).1.surface_config.height =
        new_size.height ∧
      (ctx.resize_window new_size).2 =
        [GpuOp.configure
          (ctx.resize_window new_size).1.surface_config]) := by
  constructor
  · intro h0
    have hc : ¬(0 < new_size.width ∧ 0 < new_size.height) := by
      rcases h0 with h | h <;> omega
    simp [RenderContext.resize_window, hc]
  · intro hw hh
    simp only [RenderContext.resize_window, hw, hh, and_self, if_true]

/-- C4 witness at a concrete context, a zero size and a positive size. -/
theorem resize_window_zero_noop_witness :
    sampleCtx.resize_window { width := 0, height := 5 } = (sampleCtx, []) ∧
    (sampleCtx.resize_window { width := 7, height := 5 }).1.window_size =
      { width := 7, height := 5 } ∧
    (sampleCtx.resize_window { width := 7, height := 5 }).2 =
      [GpuOp.configure
        (sampleCtx.resize_window
          { width := 7, height := 5 }).1.surface_config] :=
  ⟨(resize_window_zero_noop sampleCtx { width := 0, height := 5 }).1
      (Or.inl rfl),
   ((resize_window_zero_noop sampleCtx { width := 7, height := 5 }).2
      (by decide) (by decide)).1,
   ((resize_window_zero_noop sampleCtx { width := 7, height := 5 }).2
      (by decide) (by decide)).2.2.2⟩

/-- C5: an out-of-bounds pixel write (x ≥ width or y ≥ height) is silently
ignored — the canvas and every byte of its buffer are unchanged — and an
out-of-bounds `read_pixel` returns `none`; neither is an error. -/
theorem out_of_bounds_pixel_ops (c : Canvas) (x y r g b a : Nat)
    (h : c.width ≤ x ∨ c.height ≤ y) :
    c.write_pixel_rgba x y r g b a = c ∧
    (c.write_pixel_rgba x y r g b a).pixels = c.pixels ∧
    c.write_pixel_rgb x y r g b = c ∧
    c.read_pixel x y = none := by
  have hc : ¬(x < c.width ∧ y < c.height) := by
    rcases h with h | h <;> (intro hh; omega)
  refine ⟨?_, ?_, ?_, ?_⟩ <;>
    simp [Canvas.write_pixel_rgba, Canvas.write_pixel_rgb,
      Canvas.read_pixel, hc]

/-- C5 witness on a concrete 2×2 canvas at the out-of-bounds x = 2. -/
theorem out_of_bounds_pixel_ops_witness :
    ((Canvas.new 2 2).width ≤ 2 ∨ (Canvas.new 2 2).height ≤ 0) ∧
    ((Canvas.new 2 2).write_pixel_rgba 2 0 9 9 9 9 = Canvas.new 2 2 ∧
     ((Canvas.new 2 2).write_pixel_rgba 2 0 9 9 9 9).pixels =
       (Canvas.new 2 2).pixels ∧
     (Canvas.new 2 2).write_pixel_rgb 2 0 9 9 9 = Canvas.new 2 2 ∧
     (Canvas.new 2 2).read_pixel 2 0 = none) :=
  ⟨Or.inl (by decide),
   out_of_bounds_pixel_ops (Canvas.new 2 2) 2 0 9 9 9 9
     (Or.inl (by decide))⟩

/-- C8: `resize_canvas_texture` replaces exactly the render pipeline, the
texture and the bind group with ones freshly built for `width×height`, and
leaves the vertex buffer, index buffer, index count, canvas, surface
configuration, window size and all remaining fields unchanged. -/
theorem resize_canvas_texture_replaces_exactly (ctx : RenderContext)
    (width height : Nat) :
    (ctx.resize_canvas_texture width height).render_pipeline =
      (create_pipeline ctx.device ctx.surface_config width height).1 ∧
    (ctx.resize_canvas_texture width height).texture =
      (create_pipeline ctx.device ctx.surface_config width height).2.1 ∧
    (ctx.resize_canvas_texture width height).diffuse_bind_group =
      (create_pipeline ctx.device ctx.surface_config width height).2.2 ∧
    (ctx.resize_canvas_texture width height).texture.size =
      { width := width, height := height, depth_or_array_layers := 1 } ∧
    (ctx.resize_canvas_texture width height).vertex_buffer =
      ctx.vertex_buffer ∧
    (ctx.resize_canvas_texture width height).index_buffer =
      ctx.index_buffer ∧
    (ctx.resize_canvas_texture width height).num_indices =
      ctx.num_indices ∧
    (ctx.resize_canvas_texture width height).canvas = ctx.canvas ∧
    (ctx.resize_canvas_texture width height).surface_config =
      ctx.surface_config ∧
    (ctx.resize_canvas_texture width height).window_size =
      ctx.window_size ∧
    (ctx.resize_canvas_texture width height).window = ctx.window ∧
    (ctx.resize_canvas_texture width height).surface = ctx.surface ∧
    (ctx.resize_canvas_texture width height).device = ctx.device ∧
    (ctx.resize_canvas_texture width height).adapter = ctx.adapter ∧
    (ctx.resize_canvas_texture width height).queue = ctx.queue ∧
    (ctx.resize_canvas_texture width height).screenshot_uploader =
      ctx.screenshot_uploader ∧
    (ctx.resize_canvas_texture width height).gif_uploader =
      ctx.gif_uploader :=
  ⟨rfl, rfl, rfl, rfl, rfl, rfl, rfl, rfl, rfl, rfl, rfl, rfl, rfl, rfl,
   rfl, rfl, rfl⟩

/-- C9: `reconfigure_present_mode` sets exactly the configuration's
present mode, leaves every other configuration field and every other
context field unchanged, and immediately reconfigures the surface with the
new configuration; it is total, so a sequence of switches never fails. -/
theorem reconfigure_present_mode_exact (ctx : RenderContext)
    (mode : PresentMode) :
    (ctx.reconfigure_present_mode mode).1.surface_config.present_mode =
      mode ∧
    (ctx.reconfigure_present_mode mode).1.surface_config.format =
      ctx.surface_config.format ∧
    (ctx.reconfigure_present_mode mode).1.surface_config.width =
      ctx.surface_config.width ∧
    (ctx.reconfigure_present_mode mode).1.surface_config.height =
      ctx.surface_config.height ∧
    (ctx.reconfigure_present_mode mode).1.surface_config.usage =
      ctx.surface_config.usage ∧
    (ctx.reconfigure_present_mode mode).1.surface_config.alpha_mode =
      ctx.surface_config.alpha_mode ∧
    (ctx.reconfigure_present_mode mode).1.surface_config.view_formats =
      ctx.surface_config.view_formats ∧
    (ctx.reconfigure_present_mode mode).1.canvas = ctx.canvas ∧
    (ctx.reconfigure_present_mode mode).1.window_size = ctx.window_size ∧
    (ctx.reconfigure_present_mode mode).1.window = ctx.window ∧
    (ctx.reconfigure_present_mode mode).1.render_pipeline =
      ctx.render_pipeline ∧
    (ctx.reconfigure_present_mode mode).1.texture = ctx.texture ∧
    (ctx.reconfigure_present_mode mode).1.diffuse_bind_group =
      ctx.diffuse_bind_group ∧
    (ctx.reconfigure_present_mode mode).1.vertex_buffer =
      ctx.vertex_buffer ∧
    (ctx.reconfigure_present_mode mode).1.index_buffer =
      ctx.index_buffer ∧
    (ctx.reconfigure_present_mode mode).1.num_indices = ctx.num_indices ∧
    (ctx.reconfigure_present_mode mode).1.surface = ctx.surface ∧
    (ctx.reconfigure_present_mode mode).1.device = ctx.device ∧
    (ctx.reconfigure_present_mode mode).1.adapter = ctx.adapter ∧
    (ctx.reconfigure_present_mode mode).1.queue = ctx.queue ∧
    (ctx.reconfigure_present_mode mode).1.screenshot_uploader =
      ctx.screenshot_uploader ∧
    (ctx.reconfigure_present_mode mode).1.gif_uploader =
      ctx.gif_uploader ∧
    (ctx.reconfigure_present_mode mode).2 =
      [GpuOp.configure
        (ctx.reconfigure_present_mode mode).1.surface_config] :=
  ⟨rfl, rfl, rfl, rfl, rfl, rfl, rfl, rfl, rfl, rfl, rfl, rfl, rfl, rfl,
   rfl, rfl, rfl, rfl, rfl, rfl, rfl, rfl, rfl⟩

/-- C10: `create_pipeline` makes a `width×height` texture whose usage
includes TEXTURE_BINDING and COPY_DST, and a bind group pairing that
texture's view with a sampler that filters nearest-neighbor on every
filter and clamps to edge on every axis. -/
theorem create_pipeline_texture_and_sampler (device : Nat)
    (surface_config : SurfaceConfiguration) (width height : Nat) :
    (create_pipeline device surface_config width height).2.1.size =
      { width := width, height := height, depth_or_array_layers := 1 } ∧
    (create_pipeline device surface_config width height).2.1.usage &&&
      TEXTURE_BINDING ≠ 0 ∧
    (create_pipeline device surface_config width height).2.1.usage &&&
      COPY_DST ≠ 0 ∧
    (create_pipeline device surface_config width height).2.2.entries =
      [(0, BindingResource.textureView
          { texture :=
              (create_pipeline device surface_config width height).2.1 }),
       (1, BindingResource.sampler
          { address_mode_u := AddressMode.ClampToEdge
            address_mode_v := AddressMode.ClampToEdge
            address_mode_w := AddressMode.ClampToEdge
            mag_filter := FilterMode.Nearest
            min_filter := FilterMode.Nearest
            mipmap_filter := FilterMode.Nearest })] := by
  refine ⟨rfl, ?_, ?_, rfl⟩
  · show (TEXTURE_BINDING ||| COPY_DST) &&& TEXTURE_BINDING ≠ 0
    decide
  · show (TEXTURE_BINDING ||| COPY_DST) &&& COPY_DST ≠ 0
    decide

/-- C2: on every reachable context the surface configuration's width and
height equal the stored window physical size; `resize_window` reconfigures
the surface within the call whenever it changes the configuration; and
`resize_canvas_texture` never touches the surface configuration. -/
theorem surface_size_invariant (ctx : RenderContext) (h : Reachable ctx) :
    (ctx.surface_config.width = ctx.window_size.width ∧
     ctx.surface_config.height = ctx.window_size.height) ∧
    (∀ new_size : PhysicalSize,
      (ctx.resize_window new_size).1.surface_config ≠ ctx.surface_config →
      (ctx.resize_window new_size).2 =
        [GpuOp.configure (ctx.resize_window new_size).1.surface_config]) ∧
    (∀ width height : Nat,
      (ctx.resize_canvas_texture width height).surface_config =
        ctx.surface_config) := by
  have inv := reachable_coreInv h
  refine ⟨⟨inv.2.2.2.1, inv.2.2.2.2⟩, ?_, ?_⟩
  · intro new_size hne
    unfold RenderContext.resize_window at hne ⊢
    by_cases hc : 0 < new_size.width ∧ 0 < new_size.height
    · simp [hc]
    · simp [hc] at hne
  · intro width height
    rfl

/-- C2 witness at a freshly constructed context, a size change that alters
the configuration and a canvas-texture rebuild. -/
theorem surface_size_invariant_witness :
    (sampleCtx.surface_config.width = sampleCtx.window_size.width ∧
     sampleCtx.surface_config.height = sampleCtx.window_size.height) ∧
    (sampleCtx.resize_window { width := 7, height := 5 }).2 =
      [GpuOp.configure
        (sampleCtx.resize_window
          { width := 7, height := 5 }).1.surface_config] ∧
    (sampleCtx.resize_canvas_texture 8 8).surface_config =
      sampleCtx.surface_config :=
  ⟨(surface_size_invariant sampleCtx
      (Reachable.new sampleWindow sampleCaps)).1,
   (surface_size_invariant sampleCtx
      (Reachable.new sampleWindow sampleCaps)).2.1
      { width := 7, height := 5 } (by decide),
   (surface_size_invariant sampleCtx
      (Reachable.new sampleWindow sampleCaps)).2.2 8 8⟩

/-- C3: `render` issues the full-canvas texture upload — row stride
`4*canvas.width` bytes, `canvas.height` rows per image — as its first
operation, before surface acquisition, for any acquisition outcome, so the
upload happens even on a frame that is skipped. -/
theorem render_uploads_canvas_first (ctx : RenderContext)
    (acquired : Except SurfaceError SurfaceTexture)
    (hw : 0 < ctx.canvas.width) (hh : 0 < ctx.canvas.height)
    (hbound : 4 * ctx.canvas.width < 2 ^ 32) :
    ((ctx.render acquired).2.2).take 2 =
      [GpuOp.writeTexture ctx.texture ctx.canvas.pixels
        (some (4 * ctx.canvas.width)) (some ctx.canvas.height)
        ctx.texture.size,
       GpuOp.getCurrentTexture] := by
  have h4 : (4 * ctx.canvas.width) % 2 ^ 32 = 4 * ctx.canvas.width :=
    Nat.mod_eq_of_lt hbound
  have hnz : nonZeroU32 ((4 * ctx.canvas.width) % 2 ^ 32) =
      some (4 * ctx.canvas.width) := by
    rw [h4]
    unfold nonZeroU32
    rw [if_neg]
    omega
  have hnzh : nonZeroU32 ctx.canvas.height = some ctx.canvas.height := by
    unfold nonZeroU32
    rw [if_neg]
    omega
  have htake : ((ctx.render acquired).2.2).take 2 =
      [ctx.writeTextureOp, GpuOp.getCurrentTexture] := by
    cases acquired <;> rfl
  rw [htake]
  unfold RenderContext.writeTextureOp
  rw [hnz, hnzh]

/-- C3 witness at a concrete context and a failed acquisition. -/
theorem render_uploads_canvas_first_witness :
    0 < sampleCtx.canvas.width ∧ 0 < sampleCtx.canvas.height ∧
    4 * sampleCtx.canvas.width < 2 ^ 32 ∧
    ((sampleCtx.render (Except.error SurfaceError.Outdated)).2.2).take 2 =
      [GpuOp.writeTexture sampleCtx.texture sampleCtx.canvas.pixels
        (some (4 * sampleCtx.canvas.width)) (some sampleCtx.canvas.height)
        sampleCtx.texture.size,
       GpuOp.getCurrentTexture] :=
  ⟨by decide, by decide, by decide,
   render_uploads_canvas_first sampleCtx
     (Except.error SurfaceError.Outdated) (by decide) (by decide)
     (by decide)⟩

/-- C6: a successful frame records exactly one render pass clearing to the
fixed background color and exactly one indexed draw over indices 0..6 with
one instance; the bound geometry is the constant 4-vertex full-viewport
quad with index list [0, 1, 2, 3, 2, 1], clip corner (-1, 1) carrying
uv (0, 0) and corner (1, -1) carrying uv (1, 1). -/
theorem render_single_pass_quad (ctx : RenderContext) (h : Reachable ctx)
    (t : SurfaceTexture) :
    ((ctx.render (Except.ok t)).2.2).filter GpuOp.isBeginRenderPass =
      [GpuOp.beginRenderPass RenderContext.clearColor true] ∧
    ((ctx.render (Except.ok t)).2.2).filter GpuOp.isDrawIndexed =
      [GpuOp.drawIndexed 0 6 0 0 1] ∧
    GpuOp.setVertexBuffer 0 VERTICES ∈ (ctx.render (Except.ok t)).2.2 ∧
    GpuOp.setIndexBuffer INDICES IndexFormat.Uint16 ∈
      (ctx.render (Except.ok t)).2.2 ∧
    VERTICES.length = 4 ∧
    VERTICES.map Vertex.position =
      [(-1, -1, 0), (1, -1, 0), (-1, 1, 0), (1, 1, 0)] ∧
    ({ position := (-1, 1, 0), uv := (0, 0) } : Vertex) ∈ VERTICES ∧
    ({ position := (1, -1, 0), uv := (1, 1) } : Vertex) ∈ VERTICES ∧
    INDICES = [0, 1, 2, 3, 2, 1] := by
  obtain ⟨hv, hi, hn, -, -⟩ := reachable_coreInv h
  refine ⟨?_, ?_, ?_, ?_, by decide, by decide, by decide, by decide, rfl⟩
  · simp [RenderContext.render, RenderContext.writeTextureOp,
      GpuOp.isBeginRenderPass, List.filter]
  · simp [RenderContext.render, RenderContext.writeTextureOp,
      GpuOp.isDrawIndexed, List.filter, hn]
  · simp [RenderContext.render, RenderContext.writeTextureOp, hv]
  · simp [RenderContext.render, RenderContext.writeTextureOp, hi]

/-- C6 witness at a freshly constructed context and a concrete frame. -/
theorem render_single_pass_quad_witness :
    ((sampleCtx.render (Except.ok { id := 0 })).2.2).filter
        GpuOp.isBeginRenderPass =
      [GpuOp.beginRenderPass RenderContext.clearColor true] ∧
    ((sampleCtx.render (Except.ok { id := 0 })).2.2).filter
        GpuOp.isDrawIndexed =
      [GpuOp.drawIndexed 0 6 0 0 1] ∧
    GpuOp.setVertexBuffer 0 VERTICES ∈
      (sampleCtx.render (Except.ok { id := 0 })).2.2 ∧
    GpuOp.setIndexBuffer INDICES IndexFormat.Uint16 ∈
      (sampleCtx.render (Except.ok { id := 0 })).2.2 ∧
    VERTICES.length = 4 ∧
    VERTICES.map Vertex.position =
      [(-1, -1, 0), (1, -1, 0), (-1, 1, 0), (1, 1, 0)] ∧
    ({ position := (-1, 1, 0), uv := (0, 0) } : Vertex) ∈ VERTICES ∧
    ({ position := (1, -1, 0), uv := (1, 1) } : Vertex) ∈ VERTICES ∧
    INDICES = [0, 1, 2, 3, 2, 1] :=
  render_single_pass_quad sampleCtx
    (Reachable.new sampleWindow sampleCaps) { id := 0 }

lemma find_first_decomp {α : Type} (p : α → Bool) (l : List α) (a : α)
    (h : l.find? p = some a) :
    ∃ l₁ l₂, l = l₁ ++ a :: l₂ ∧ p a = true ∧ ∀ x ∈ l₁, p x = false := by
  induction l with
  | nil => simp at h
  | cons b tail ih =>
    by_cases hb : p b = true
    · rw [List.find?_cons_of_pos _ hb] at h
      obtain rfl : b = a := by simpa using h
      exact ⟨[], tail, by simp, hb, by simp⟩
    · rw [List.find?_cons_of_neg _ (by simpa using hb)] at h
      obtain ⟨l₁, l₂, rfl, hpa, hl₁⟩ := ih h
      refine ⟨b :: l₁, l₂, rfl, hpa, ?_⟩
      intro x hx
      rcases List.mem_cons.mp hx with rfl | hx
      · simpa using hb
      · exact hl₁ x hx

/-- C7: the surface configuration's format is a reported capability; when
some reported format is sRGB-capable the chosen one is the first such;
when none is, the chosen one is the first reported format; and
construction applies the chosen configuration to the surface. -/
theorem surface_format_srgb (window : Window) (caps : SurfaceCapabilities)
    (present_mode : PresentMode) (hne : caps.formats ≠ []) :
    (create_surface_config window caps present_mode).format ∈
      caps.formats ∧
    ((∃ f ∈ caps.formats, f.srgb = true) →
      ∃ l₁ l₂,
        caps.formats =
          l₁ ++ (create_surface_config window caps present_mode).format ::
            l₂ ∧
        (create_surface_config window caps present_mode).format.srgb =
          true ∧
        ∀ f ∈ l₁, f.srgb = false) ∧
    ((∀ f ∈ caps.formats, f.srgb = false) →
      some (create_surface_config window caps present_mode).format =
        caps.formats.head?) ∧
    (RenderContext.new window caps).2 =
      [GpuOp.configure
        (create_surface_config window caps PresentMode.AutoVsync)] := by
  have hfmt : (create_surface_config window caps present_mode).format =
      (caps.formats.find? (fun f => f.srgb)).getD
        (caps.formats.headD { id := 0, srgb := false }) := rfl
  refine ⟨?_, ?_, ?_, rfl⟩
  · rw [hfmt]
    cases hF : caps.formats.find? (fun f => f.srgb) with
    | none =>
        obtain ⟨f, fs, hfs⟩ := List.exists_cons_of_ne_nil hne
        rw [hfs]
        simp
    | some f =>
        simpa using List.mem_of_find?_eq_some hF
  · intro hex
    rw [hfmt]
    cases hF : caps.formats.find? (fun f => f.srgb) with
    | none =>
        obtain ⟨f, hf, hsrgb⟩ := hex
        have := List.find?_eq_none.mp hF f hf
        simp [hsrgb] at this
    | some f =>
        obtain ⟨l₁, l₂, hsplit, hpa, hl₁⟩ :=
          find_first_decomp (fun g => g.srgb) caps.formats f hF
        exact ⟨l₁, l₂, by simpa using hsplit, by simpa using hpa,
          fun g hg => by simpa using hl₁ g hg⟩
  · intro hall
    rw [hfmt]
    cases hF : caps.formats.find? (fun f => f.srgb) with
    | none =>
        obtain ⟨f, fs, hfs⟩ := List.exists_cons_of_ne_nil hne
        rw [hfs]
        simp
    | some f =>
        have hmem := List.mem_of_find?_eq_some hF
        have hsrgb := List.find?_some hF
        have := hall f hmem
        simp [this] at hsrgb

/-- C7 witness on concrete capabilities whose second format is the first
sRGB-capable one. -/
theorem surface_format_srgb_witness :
    sampleCaps.formats ≠ [] ∧
    (create_surface_config sampleWindow sampleCaps
        PresentMode.Fifo).format ∈ sampleCaps.formats ∧
    (create_surface_config sampleWindow sampleCaps
        PresentMode.Fifo).format.srgb = true ∧
    (RenderContext.new sampleWindow sampleCaps).2 =
      [GpuOp.configure
        (create_surface_config sampleWindow sampleCaps
          PresentMode.AutoVsync)] := by
  refine ⟨by decide, ?_, ?_, ?_⟩
  · exact (surface_format_srgb sampleWindow sampleCaps PresentMode.Fifo
      (by decide)).1
  · obtain ⟨l₁, l₂, hsplit, hsrgb, hl₁⟩ :=
      (surface_format_srgb sampleWindow sampleCaps PresentMode.Fifo
        (by decide)).2.1 ⟨{ id := 2, srgb := true }, by decide, rfl⟩
    exact hsrgb
  · exact (surface_format_srgb sampleWindow sampleCaps PresentMode.Fifo
      (by decide)).2.2.2

end PixelRenderer
